import Mathlib

/-!
Verification development for the `ai-financial-analysis` repository
(`src/llm_fingpt.py`).

The file shallowly embeds the metric-extraction pipeline of
`extract_metrics` (prompt construction, the oracle call, Python's
`str.strip` / markdown fence stripping, `json.loads`, and `dict.update`
merge semantics), the startup credential check, and the presentation-layer
value formatting.  The Intent Router (`classify`) of the repository's
other prototype files is not present under `src/` and is modelled from the
specification where noted.

Python values decoded from JSON are modelled by the inductive type `Json`;
Python dictionaries are association lists of `Json` key/value pairs that
preserve insertion order, with `dict.__setitem__` overwriting an existing
key in place and appending a fresh key at the end, exactly as CPython
dictionaries do.
-/

set_option autoImplicit false

namespace FinGpt

/-- A JSON value as produced by Python's `json.loads`.  Numbers are kept
exactly as `mantissa * 10 ^ exp10` (Python distinguishes `int` and `float`
only in later arithmetic, which the claims do not touch).  The `NaN` /
`Infinity` extensions of Python's `json` module are not modelled; no claim
depends on them. -/
inductive Json where
  | null
  | bool (b : Bool)
  | num (mantissa : Int) (exp10 : Int)
  | str (s : String)
  | arr (elems : List Json)
  | obj (pairs : List (String × Json))

/-- The value a hashable Python object contributes as a dictionary key.
Python's `bool` is a subtype of `int` (`True == 1`), and numeric equality
is value equality, so booleans and numbers share the rational component. -/
inductive KeyVal where
  | vNull
  | vNum (q : ℚ)
  | vStr (s : String)
deriving DecidableEq

/-- Key value of a `Json` atom; `none` for unhashable values (lists and
dicts), which can never be stored as dictionary keys. -/
def Json.keyVal : Json → Option KeyVal
  | .null => some .vNull
  | .bool b => some (.vNum (if b then 1 else 0))
  | .num m e => some (.vNum ((m : ℚ) * (10 : ℚ) ^ e))
  | .str s => some (.vStr s)
  | .arr _ => none
  | .obj _ => none

/-- Python `==` on dictionary keys (both sides hashable atoms). -/
def atomEq (a b : Json) : Bool :=
  match a.keyVal, b.keyVal with
  | some x, some y => decide (x = y)
  | _, _ => false

/-! ### Python's `json.loads`

A recursive-descent parser for the JSON grammar accepted by the strict
default decoder of Python's `json` module: the whitespace set is
`' '`, `'\t'`, `'\n'`, `'\r'`; numbers follow
`-?(0|[1-9][0-9]*)(\.[0-9]+)?([eE][+-]?[0-9]+)?`; strings are strict
(unescaped control characters rejected), with the eight standard escapes
and `\uXXXX` (surrogate pairs combined). -/

/-- JSON whitespace (`json.decoder.WHITESPACE`). -/
def jsonWs (c : Char) : Bool :=
  c = ' ' || c = '\t' || c = '\n' || c = '\r'

/-- Skip leading JSON whitespace. -/
def skipWs : List Char → List Char
  | c :: rest => if jsonWs c then skipWs rest else c :: rest
  | [] => []

/-- Hexadecimal digit value, if any. -/
def hexVal (c : Char) : Option Nat :=
  if '0' ≤ c ∧ c ≤ '9' then some (c.toNat - 48)
  else if 'a' ≤ c ∧ c ≤ 'f' then some (c.toNat - 87)
  else if 'A' ≤ c ∧ c ≤ 'F' then some (c.toNat - 55)
  else none

/-- Value of four hex digits. -/
def hex4 (a b c d : Char) : Option Nat :=
  match hexVal a, hexVal b, hexVal c, hexVal d with
  | some x, some y, some z, some w => some (((x * 16 + y) * 16 + z) * 16 + w)
  | _, _, _, _ => none

/-- The single-character JSON escapes. -/
def escChar (c : Char) : Option Char :=
  if c = '"' then some '"'
  else if c = '\\' then some '\\'
  else if c = '/' then some '/'
  else if c = 'b' then some (Char.ofNat 8)
  else if c = 'f' then some (Char.ofNat 12)
  else if c = 'n' then some '\n'
  else if c = 'r' then some '\r'
  else if c = 't' then some '\t'
  else none

/-- Parse the body of a JSON string (after the opening quote), returning
the decoded characters and the input remaining after the closing quote.
Every step consumes at least one input character, so the fuel supplied by
`parseStringBody` (`length + 1`) can never run out. -/
def parseStrChars : Nat → List Char → Except Unit (List Char × List Char)
  | 0, _ => .error ()
  | Nat.succ fuel, input =>
    match input with
    | [] => .error ()
    | c :: rest =>
      if c = '"' then .ok ([], rest)
      else if c = '\\' then
        match rest with
        | [] => .error ()
        | e :: r =>
          if e = 'u' then
            match r with
            | h1 :: h2 :: h3 :: h4 :: r2 =>
              match hex4 h1 h2 h3 h4 with
              | none => .error ()
              | some n =>
                if 0xD800 ≤ n ∧ n ≤ 0xDBFF then
                  match r2 with
                  | b1 :: b2 :: g1 :: g2 :: g3 :: g4 :: r3 =>
                    let lowSur : Option Nat :=
                      if b1 = '\\' ∧ b2 = 'u' then
                        match hex4 g1 g2 g3 g4 with
                        | some n2 => if 0xDC00 ≤ n2 ∧ n2 ≤ 0xDFFF then some n2 else none
                        | none => none
                      else none
                    match lowSur with
                    | some n2 =>
                      match parseStrChars fuel r3 with
                      | .ok (cs, r4) =>
                        .ok (Char.ofNat (0x10000 + (n - 0xD800) * 1024 + (n2 - 0xDC00)) :: cs, r4)
                      | .error u => .error u
                    | none =>
                      match parseStrChars fuel r2 with
                      | .ok (cs, r4) => .ok (Char.ofNat n :: cs, r4)
                      | .error u => .error u
                  | _ =>
                    match parseStrChars fuel r2 with
                    | .ok (cs, r4) => .ok (Char.ofNat n :: cs, r4)
                    | .error u => .error u
                else
                  match parseStrChars fuel r2 with
                  | .ok (cs, r4) => .ok (Char.ofNat n :: cs, r4)
                  | .error u => .error u
            | _ => .error ()
          else
            match escChar e with
            | some ch =>
              match parseStrChars fuel r with
              | .ok (cs, r2) => .ok (ch :: cs, r2)
              | .error u => .error u
            | none => .error ()
      else if c.toNat < 0x20 then .error ()
      else
        match parseStrChars fuel rest with
        | .ok (cs, r2) => .ok (c :: cs, r2)
        | .error u => .error u

/-- Parse a JSON string body into a `String`. -/
def parseStringBody (input : List Char) : Except Unit (String × List Char) :=
  match parseStrChars (input.length + 1) input with
  | .ok (cs, rest) => .ok (String.mk cs, rest)
  | .error u => .error u

/-- Consume a run of decimal digits, extending accumulator `acc` that
already holds `cnt` digits; returns value, digit count and the rest. -/
def digitsAux : List Char → Nat → Nat → Nat × Nat × List Char
  | c :: rest, acc, cnt =>
    if c.isDigit then digitsAux rest (acc * 10 + (c.toNat - 48)) (cnt + 1)
    else (acc, cnt, c :: rest)
  | [], acc, cnt => (acc, cnt, [])

/-- Fraction and exponent tail of a JSON number.  The regex consumes a
fraction only when `.` is followed by a digit and an exponent only when
`e`/`E` (with optional sign) is followed by a digit; otherwise those
characters are left unconsumed for the caller. -/
def numTail (neg : Bool) (intPart : Nat) (input : List Char) : Json × List Char :=
  let fr : Nat × Int × List Char :=
    match input with
    | '.' :: d :: rest =>
      if d.isDigit then
        let (f, k, r) := digitsAux rest (d.toNat - 48) 1
        (intPart * 10 ^ k + f, -(k : Int), r)
      else (intPart, 0, input)
    | _ => (intPart, 0, input)
  let man1 := fr.1
  let exp1 := fr.2.1
  let r1 := fr.2.2
  let ex : Int × List Char :=
    match r1 with
    | e :: '+' :: d :: rest =>
      if (e = 'e' || e = 'E') && d.isDigit then
        let (v, _, r) := digitsAux rest (d.toNat - 48) 1
        ((v : Int), r)
      else (0, r1)
    | e :: '-' :: d :: rest =>
      if (e = 'e' || e = 'E') && d.isDigit then
        let (v, _, r) := digitsAux rest (d.toNat - 48) 1
        (-(v : Int), r)
      else (0, r1)
    | e :: d :: rest =>
      if (e = 'e' || e = 'E') && d.isDigit then
        let (v, _, r) := digitsAux rest (d.toNat - 48) 1
        ((v : Int), r)
      else (0, r1)
    | _ => (0, r1)
  (.num (if neg then -(man1 : Int) else (man1 : Int)) (exp1 + ex.1), ex.2)

/-- Parse a JSON number per `json.decoder.NUMBER_RE`: an optional minus,
then `0` or a nonzero-led digit run, then optional fraction/exponent. -/
def parseNumber (input : List Char) : Except Unit (Json × List Char) :=
  let sr : Bool × List Char :=
    match input with
    | c :: r => if c = '-' then (true, r) else (false, input)
    | [] => (false, input)
  let neg := sr.1
  match sr.2 with
  | [] => .error ()
  | c :: r =>
    if c = '0' then .ok (numTail neg 0 r)
    else if c.isDigit then
      let (n, _, rest) := digitsAux r (c.toNat - 48) 1
      .ok (numTail neg n rest)
    else .error ()

mutual

/-- Parse one JSON value; `fuel` bounds the recursion depth and is chosen
by `json_loads` to exceed any depth reachable on the given input. -/
def parseValue : Nat → List Char → Except Unit (Json × List Char)
  | 0, _ => .error ()
  | Nat.succ fuel, input =>
    match skipWs input with
    | [] => .error ()
    | c :: rest =>
      if c = '\x7b' then parseObjFirst fuel rest
      else if c = '[' then parseArrFirst fuel rest
      else if c = '"' then
        match parseStringBody rest with
        | .ok (s, r) => .ok (.str s, r)
        | .error u => .error u
      else if c = 't' then
        match rest with
        | 'r' :: 'u' :: 'e' :: r => .ok (.bool true, r)
        | _ => .error ()
      else if c = 'f' then
        match rest with
        | 'a' :: 'l' :: 's' :: 'e' :: r => .ok (.bool false, r)
        | _ => .error ()
      else if c = 'n' then
        match rest with
        | 'u' :: 'l' :: 'l' :: r => .ok (.null, r)
        | _ => .error ()
      else parseNumber (c :: rest)

/-- After an opening brace: an empty object or the first member. -/
def parseObjFirst : Nat → List Char → Except Unit (Json × List Char)
  | 0, _ => .error ()
  | Nat.succ fuel, input =>
    match skipWs input with
    | [] => .error ()
    | c :: rest =>
      if c = '\x7d' then .ok (.obj [], rest)
      else parseObjItems fuel [] (c :: rest)

/-- Members of an object: `"key" : value` pairs separated by commas. -/
def parseObjItems : Nat → List (String × Json) → List Char → Except Unit (Json × List Char)
  | 0, _, _ => .error ()
  | Nat.succ fuel, acc, input =>
    match skipWs input with
    | '"' :: rest =>
      match parseStringBody rest with
      | .error _ => .error ()
      | .ok (key, r1) =>
        match skipWs r1 with
        | ':' :: r2 =>
          match parseValue fuel r2 with
          | .error _ => .error ()
          | .ok (v, r3) =>
            match skipWs r3 with
            | [] => .error ()
            | c :: r4 =>
              if c = ',' then parseObjItems fuel (acc ++ [(key, v)]) r4
              else if c = '\x7d' then .ok (.obj (acc ++ [(key, v)]), r4)
              else .error ()
        | _ => .error ()
    | _ => .error ()

/-- After an opening bracket: an empty array or the first element. -/
def parseArrFirst : Nat → List Char → Except Unit (Json × List Char)
  | 0, _ => .error ()
  | Nat.succ fuel, input =>
    match skipWs input with
    | ']' :: rest => .ok (.arr [], rest)
    | l => parseArrItems fuel [] l

/-- Elements of an array, separated by commas. -/
def parseArrItems : Nat → List Json → List Char → Except Unit (Json × List Char)
  | 0, _, _ => .error ()
  | Nat.succ fuel, acc, input =>
    match parseValue fuel input with
    | .error _ => .error ()
    | .ok (v, r1) =>
      match skipWs r1 with
      | ',' :: r2 => parseArrItems fuel (acc ++ [v]) r2
      | ']' :: r2 => .ok (.arr (acc ++ [v]), r2)
      | _ => .error ()

end

/-- Python's `json.loads`: parse one value surrounded by optional
whitespace; anything left over is "Extra data" and raises
`JSONDecodeError`.  Every recursive step of the parser consumes input
before spending fuel, so `4 * length + 8` fuel can never run out. -/
def json_loads (s : String) : Except Unit Json :=
  match parseValue (4 * s.length + 8) s.data with
  | .ok (v, rest) =>
    match skipWs rest with
    | [] => .ok v
    | _ => .error ()
  | .error _ => .error ()

/-! ### Python dictionaries and `dict.update`

A CPython dictionary is insertion-ordered; `d[k] = v` overwrites the value
of an existing equal key in place (keeping the originally stored key
object and its position) and appends a fresh key at the end.
`dict.update(x)` merges a mapping, or else treats `x` as an iterable of
key/value pairs; a non-iterable element raises `TypeError`, an element of
length other than two raises `ValueError`, and an unhashable key raises
`TypeError`.  Uncaught Python exception classes relevant here are
`TypeError` and `ValueError`; oracle-client failures are carried
separately. -/

/-- An error escaping the Python code of `extract_metrics`. -/
inductive OracleError where
  | connection
  | timeout
  | status (code : Nat)
deriving DecidableEq

/-- An exception propagating out of `extract_metrics` to its caller. -/
inductive PyErr where
  | typeError
  | valueError
  | oracle (e : OracleError)
deriving DecidableEq

/-- Python dictionary lookup `d[k]` (as an `Option`). -/
def lookupD : List (Json × Json) → Json → Option Json
  | [], _ => none
  | (k', v') :: rest, k => if atomEq k' k then some v' else lookupD rest k

/-- Python `d[k] = v`: overwrite in place or append. -/
def dictInsert : List (Json × Json) → Json → Json → List (Json × Json)
  | [], k, v => [(k, v)]
  | (k', v') :: rest, k, v =>
    if atomEq k' k then (k', v) :: rest else (k', v') :: dictInsert rest k v

/-- The string `str(c)` for one character, as yielded by iterating a
Python string. -/
def charStr (c : Char) : String := ⟨[c]⟩

/-- Iterating a Python string yields its characters as length-1 strings. -/
def stringItems (s : String) : List Json :=
  s.data.map (fun c => Json.str (charStr c))

/-- The keys of a Python dict built from raw JSON object pairs (first
occurrence keeps its position, later duplicates only overwrite values),
as yielded by iterating the dict. -/
def objKeys (kvs : List (String × Json)) : List String :=
  kvs.foldl (fun acc kv => if acc.contains kv.1 then acc else acc ++ [kv.1]) []

/-- Convert one element of the iterable given to `dict.update` into a
key/value pair: it must be an iterable of length two (`TypeError`
otherwise for non-iterables, `ValueError` for wrong length), and the key
must be hashable (`TypeError` otherwise).  Iterating a nested dict yields
its keys. -/
def itemToPair : Json → Except PyErr (Json × Json)
  | .arr [k, v] =>
    if (k.keyVal).isSome then .ok (k, v) else .error .typeError
  | .arr _ => .error .valueError
  | .str s =>
    match s.data with
    | [a, b] => .ok (.str (charStr a), .str (charStr b))
    | _ => .error .valueError
  | .obj kvs =>
    match objKeys kvs with
    | [a, b] => .ok (.str a, .str b)
    | _ => .error .valueError
  | _ => .error .typeError

/-- Fold the key/value pairs of an update iterable into the dict. -/
def updateFromPairs (d : List (Json × Json)) : List Json → Except PyErr (List (Json × Json))
  | [] => .ok d
  | item :: rest =>
    match itemToPair item with
    | .error e => .error e
    | .ok (k, v) => updateFromPairs (dictInsert d k v) rest

/-- Python `d.update(x)`: merge a mapping, or treat `x` as an iterable of
key/value pairs; numbers, booleans and `None` are not iterable
(`TypeError`). -/
def dict_update (d : List (Json × Json)) : Json → Except PyErr (List (Json × Json))
  | .obj kvs => .ok (kvs.foldl (fun acc kv => dictInsert acc (.str kv.1) kv.2) d)
  | .arr items => updateFromPairs d items
  | .str s => updateFromPairs d (stringItems s)
  | _ => .error .typeError

/-! ### String handling of `extract_metrics`

`str.strip()` with no argument removes leading and trailing whitespace
(the ASCII whitespace set suffices for every string considered here);
`str.split(sep)` for a non-empty separator splits on each non-overlapping
occurrence scanning left to right, and `str.startswith` is prefix
testing.  Indexing `[i]` becomes `List.getD`; the defaults are never
reached, since a successful `startswith` guarantees the indexed part
exists, exactly as in the Python code. -/

/-- Python whitespace stripped by `str.strip()` (ASCII part). -/
def pyWs (c : Char) : Bool :=
  c = ' ' || c = '\t' || c = '\n' || c = '\r' || c = '\x0b' || c = '\x0c'

/-- Python `s.strip()`. -/
def pyStrip (s : String) : String :=
  ⟨((s.data.dropWhile pyWs).reverse.dropWhile pyWs).reverse⟩

/-- One character list is a prefix of another. -/
def isPrefixList : List Char → List Char → Bool
  | [], _ => true
  | _ :: _, [] => false
  | a :: as, b :: bs => a = b && isPrefixList as bs

/-- Python `s.startswith(p)`. -/
def startsWith (s p : String) : Bool :=
  isPrefixList p.data s.data

/-- Worker for `pySplit`: scan left to right, cutting at each
non-overlapping occurrence of the separator.  Each step consumes at least
one character when the separator is non-empty, so the fuel supplied by
`pySplit` (`length + 1`) can never run out there. -/
def pySplitAux (sep : List Char) : Nat → List Char → List Char → List (List Char)
  | 0, l, acc => [acc.reverse ++ l]
  | Nat.succ _, [], acc => [acc.reverse]
  | Nat.succ fuel, c :: rest, acc =>
    if isPrefixList sep (c :: rest) then
      acc.reverse :: pySplitAux sep fuel ((c :: rest).drop sep.length) []
    else pySplitAux sep fuel rest (c :: acc)

/-- Python `s.split(sep)` for a non-empty separator. -/
def pySplit (s sep : String) : List String :=
  (pySplitAux sep.data (s.data.length + 1) s.data []).map String.mk

/-- Lines 168–171 of `src/llm_fingpt.py`: strip a leading markdown code
fence (with or without the `json` tag) from the already-stripped raw
oracle output. -/
def stripFence (raw_output : String) : String :=
  if startsWith raw_output "```json" then
    pyStrip (((pySplit ((pySplit raw_output "```json").getD 1 "") "```").getD 0 ""))
  else if startsWith raw_output "```" then
    pyStrip ((pySplit raw_output "```").getD 1 "")
  else raw_output

/-! ### The extraction request and `extract_metrics` -/

/-- A role-tagged chat message. -/
structure ChatMessage where
  role : String
  content : String
deriving DecidableEq

/-- The payload of `client.chat.completions.create` as assembled by
`extract_metrics` (lines 156–164 of `src/llm_fingpt.py`). -/
structure ChatRequest where
  model : String
  messages : List ChatMessage
  temperature : ℚ
  max_tokens : Nat
deriving DecidableEq

/-- The fixed part of the extraction prompt, before the report text is
appended. -/
def extractPromptIntro : String :=
  "You are a financial data extractor. From the following report, extract ONLY the values for: " ++
  "revenue (total annual revenue in Cr or billions), profit (net profit in Cr or billions), " ++
  "expenses (total expenses in Cr or billions), market_cap (in Cr or billions). " ++
  "If not mentioned, use 0. Output EXACTLY this JSON format, nothing else:\n" ++
  "\x7b\"revenue\": 12345, \"profit\": 1234, \"expenses\": 11111, \"market_cap\": 123456, \"currency\": \"₹\"\x7d\n\n" ++
  "Report: "

/-- The extraction prompt: the fixed instruction followed by the first
2000 characters of the report (`report_text[:2000]`). -/
def extract_prompt (report_text : String) : String :=
  extractPromptIntro ++ report_text.take 2000

/-- The system instruction sent together with the extraction prompt. -/
def extractSystemMsg : String :=
  "You output ONLY valid JSON. No explanations."

/-- The chat-completion request issued by `extract_metrics`. -/
def extractRequest (report_text : String) : ChatRequest :=
  ⟨"llama-3.1-8b-instant",
   [⟨"system", extractSystemMsg⟩, ⟨"user", extract_prompt report_text⟩],
   0, 150⟩

/-- Outcome of one oracle call: the completion text
(`completion.choices[0].message.content`), or an exception raised by the
completion client. -/
inductive OracleOutcome where
  | ok (content : String)
  | err (e : OracleError)

/-- An oracle that returns the same outcome for every request. -/
def stubOracle (o : OracleOutcome) : ChatRequest → OracleOutcome := fun _ => o

/-- The default `FinancialMetrics` record (line 175 / line 180 of
`src/llm_fingpt.py`). -/
def default_metrics : List (Json × Json) :=
  [(.str "revenue", .num 0 0), (.str "profit", .num 0 0), (.str "expenses", .num 0 0),
   (.str "market_cap", .num 0 0), (.str "currency", .str "₹")]

/-- `extract_metrics` (lines 145–180 of `src/llm_fingpt.py`), with the
oracle supplied as a function from the request to its outcome.  The
`try`/`except` catches exactly `json.JSONDecodeError` and `KeyError`:
a decode failure yields the default record, while an exception raised by
the completion client, and a `TypeError`/`ValueError` raised by
`defaults.update(parsed)`, propagate to the caller as `.error`. -/
def extract_metrics (report_text : String) (oracle : ChatRequest → OracleOutcome) :
    Except PyErr (List (Json × Json)) :=
  match oracle (extractRequest report_text) with
  | .err e => .error (.oracle e)
  | .ok content =>
    let raw_output := pyStrip content
    let raw_output := stripFence raw_output
    match json_loads raw_output with
    | .error _ => .ok default_metrics
    | .ok parsed =>
      match dict_update default_metrics parsed with
      | .error e => .error e
      | .ok d => .ok d

/-! ### Startup credential check (lines 19–27 of `src/llm_fingpt.py`) -/

/-- Result of running the module prologue: either the script halts with a
displayed error message before any analysis action exists (`st.stop()`),
or it proceeds and constructs the oracle client from the key. -/
inductive StartupResult where
  | halted (message : String)
  | running (apiKey : String)
deriving DecidableEq

/-- Python truthiness of `os.getenv(...)`: `None` and the empty string are
both falsy. -/
def py_truthy (s : Option String) : Bool :=
  match s with
  | none => false
  | some v => !(v = "")

/-- Lines 19–27: read `GROQ_API_KEY` from the environment; `if not
api_key` displays an error and stops the script, otherwise the client is
constructed with the key. -/
def startup (env : String → Option String) : StartupResult :=
  let api_key := env "GROQ_API_KEY"
  if py_truthy api_key then .running (api_key.getD "")
  else .halted "❌ GROQ_API_KEY not found. Please add it in your .env file."

/-! ### Intent Router, modelled from the spec -/

/-- Modelled from the spec: the closed enumeration of analysis categories
of §3, with the implicit general/document fallback.  The Intent Router's
source file is one of the repository's other prototype files and is not
under `src/`. -/
inductive AnalysisCategory where
  | business_model
  | management_commentary
  | red_flags
  | key_products
  | evolution
  | stock_performance
  | growth_outlook
  | guidance_vs_delivery
  | fallback
deriving DecidableEq

/-- Non-overlapping substring containment, as Python's `in` operator on
strings (for a non-empty pattern, `pat in s` iff splitting on `pat`
produces at least two parts). -/
def containsSub (s pat : String) : Bool :=
  2 ≤ (pySplit s pat).length

/-- Python `s.lower()` (ASCII range; the spec's keywords are ASCII). -/
def pyLower (s : String) : String :=
  ⟨s.data.map Char.toLower⟩

/-- Modelled from the spec: §4.1's classification algorithm — evaluate the
fixed, ordered list of keyword predicates against the lower-cased query
and return the first category whose predicate matches; the Intent
Router's source file is not under `src/`. -/
def classify (query : String) : AnalysisCategory :=
  let q := pyLower query
  if containsSub q "business model" then .business_model
  else if containsSub q "management" && containsSub q "commentary" then .management_commentary
  else if containsSub q "red flag" then .red_flags
  else if containsSub q "product" || containsSub q "service" then .key_products
  else if containsSub q "evolution" then .evolution
  else if containsSub q "stock" || containsSub q "performance" then .stock_performance
  else if containsSub q "growth" || containsSub q "outlook" then .growth_outlook
  else if containsSub q "guidance" then .guidance_vs_delivery
  else .fallback

/-! ### Presentation of metric values

Lines 187–191 build the chart `DataFrame` and lines 241–249 the table;
both render a value `x` as `f"\x7bx\x7d \x7bcurrency\x7d Cr"` when
`x > 0` and as `"N/A"` otherwise.  The numeric metric fields are modelled
as Python integers. -/

/-- The `Value` column of `table_df` (lines 241–249): four inline
conditional expressions. -/
def table_df_values (revenue profit expenses market_cap : Int) (currency : String) : List String :=
  [ if revenue > 0 then toString revenue ++ " " ++ currency ++ " Cr" else "N/A",
    if profit > 0 then toString profit ++ " " ++ currency ++ " Cr" else "N/A",
    if expenses > 0 then toString expenses ++ " " ++ currency ++ " Cr" else "N/A",
    if market_cap > 0 then toString market_cap ++ " " ++ currency ++ " Cr" else "N/A" ]

/-- The `Value` column of the chart `DataFrame` `df` after the `apply`
on line 191: the same conditional applied to each of the four metrics. -/
def df_values (revenue profit expenses market_cap : Int) (currency : String) : List String :=
  [revenue, profit, expenses, market_cap].map
    (fun x => if x > 0 then toString x ++ " " ++ currency ++ " Cr" else "N/A")

/-! ### Lemmas about dictionary operations -/

/-- The last value a raw JSON object pair list associates with key `k`
once its pairs are inserted into a dictionary (later duplicates win). -/
def objLastVal : List (String × Json) → Json → Option Json
  | [], _ => none
  | (k1, v1) :: rest, k =>
    match objLastVal rest k with
    | some v => some v
    | none => if atomEq (.str k1) k then some v1 else none

theorem atomEq_symm (a b : Json) : atomEq a b = atomEq b a := by
  unfold atomEq
  cases a.keyVal <;> cases b.keyVal <;> simp [eq_comm]

theorem atomEq_trans {a b c : Json} (h1 : atomEq a b = true) (h2 : atomEq b c = true) :
    atomEq a c = true := by
  unfold atomEq at h1 h2 ⊢
  cases ha : a.keyVal <;> cases hb : b.keyVal <;> cases hc : c.keyVal <;>
    simp_all

theorem atomEq_str (a b : String) : atomEq (.str a) (.str b) = true ↔ a = b := by
  simp [atomEq, Json.keyVal]

theorem lookupD_dictInsert (d : List (Json × Json)) (k v k2 : Json) :
    lookupD (dictInsert d k v) k2 = if atomEq k k2 then some v else lookupD d k2 := by
  induction d with
  | nil => simp [dictInsert, lookupD]
  | cons kv rest ih =>
    obtain ⟨k', v'⟩ := kv
    by_cases h : atomEq k' k = true
    · have hsy : atomEq k k' = true := by rw [atomEq_symm]; exact h
      simp only [dictInsert, h, if_true, lookupD]
      by_cases h2 : atomEq k' k2 = true
      · have hk : atomEq k k2 = true := atomEq_trans hsy h2
        simp [h2, hk]
      · have hk : atomEq k k2 = false := by
          cases hc : atomEq k k2
          · rfl
          · exact absurd (atomEq_trans h hc) h2
        simp [h2, hk, lookupD]
    · have hb : atomEq k' k = false := by cases hc : atomEq k' k <;> simp_all
      simp only [dictInsert, hb, Bool.false_eq_true, if_false, lookupD]
      by_cases h2 : atomEq k' k2 = true
      · have hk : atomEq k k2 = false := by
          cases hc : atomEq k k2
          · rfl
          · have : atomEq k' k = true :=
              atomEq_trans h2 (by rw [atomEq_symm]; exact hc)
            simp_all
        simp [h2, hk]
      · have h2b : atomEq k' k2 = false := by cases hc : atomEq k' k2 <;> simp_all
        simp [h2b, ih]

theorem updateFromPairs_isSome (items : List Json) :
    ∀ (d d' : List (Json × Json)) (k : Json),
      updateFromPairs d items = .ok d' →
      (lookupD d k).isSome = true → (lookupD d' k).isSome = true := by
  induction items with
  | nil =>
    intro d d' k h hk
    simp only [updateFromPairs] at h
    cases h
    exact hk
  | cons item rest ih =>
    intro d d' k h hk
    simp only [updateFromPairs] at h
    cases hi : itemToPair item with
    | error e => rw [hi] at h; exact absurd h (by simp)
    | ok kv =>
      rw [hi] at h
      obtain ⟨k1, v1⟩ := kv
      refine ih _ _ _ h ?_
      rw [lookupD_dictInsert]
      cases hc : atomEq k1 k
      · simpa using hk
      · simp

theorem lookupD_foldInsert (kvs : List (String × Json)) :
    ∀ (acc : List (Json × Json)) (k : Json),
      lookupD (kvs.foldl (fun a p => dictInsert a (.str p.1) p.2) acc) k =
        match objLastVal kvs k with
        | some v => some v
        | none => lookupD acc k := by
  induction kvs with
  | nil => intro acc k; simp [objLastVal]
  | cons p rest ih =>
    intro acc k
    obtain ⟨k1, v1⟩ := p
    simp only [List.foldl]
    rw [ih]
    cases h : objLastVal rest k with
    | some v => simp [objLastVal, h]
    | none =>
      simp only [objLastVal, h]
      rw [lookupD_dictInsert]
      cases hc : atomEq (.str k1) k <;> simp

theorem lookupD_default_none (k : String)
    (h : k ∉ (["revenue", "profit", "expenses", "market_cap", "currency"] : List String)) :
    lookupD default_metrics (.str k) = none := by
  simp only [List.mem_cons, List.mem_singleton, not_or] at h
  obtain ⟨h1, h2, h3, h4, h5⟩ := h
  have e1 : atomEq (.str "revenue") (.str k) = false := by
    cases hc : atomEq (.str "revenue") (.str k)
    · rfl
    · exact absurd ((atomEq_str _ _).mp hc).symm h1
  have e2 : atomEq (.str "profit") (.str k) = false := by
    cases hc : atomEq (.str "profit") (.str k)
    · rfl
    · exact absurd ((atomEq_str _ _).mp hc).symm h2
  have e3 : atomEq (.str "expenses") (.str k) = false := by
    cases hc : atomEq (.str "expenses") (.str k)
    · rfl
    · exact absurd ((atomEq_str _ _).mp hc).symm h3
  have e4 : atomEq (.str "market_cap") (.str k) = false := by
    cases hc : atomEq (.str "market_cap") (.str k)
    · rfl
    · exact absurd ((atomEq_str _ _).mp hc).symm h4
  have e5 : atomEq (.str "currency") (.str k) = false := by
    cases hc : atomEq (.str "currency") (.str k)
    · rfl
    · exact absurd ((atomEq_str _ _).mp hc).symm h5.1
  simp [default_metrics, lookupD, e1, e2, e3, e4, e5]

/-- Unfolding `extract_metrics` once the oracle outcome is known to be a
successful completion. -/
theorem extract_metrics_ok_eq (rt : String) (oracle : ChatRequest → OracleOutcome)
    (content : String) (h : oracle (extractRequest rt) = .ok content) :
    extract_metrics rt oracle =
      match json_loads (stripFence (pyStrip content)) with
      | .error _ => .ok default_metrics
      | .ok parsed =>
        match dict_update default_metrics parsed with
        | .error e => .error e
        | .ok d => .ok d := by
  unfold extract_metrics
  rw [h]

/-! ### Claim theorems -/

/-- C1 (counterexample): the claim says an oracle-call failure is caught
and mapped to the default record, never propagating; but the `except`
clause on line 178 catches only `json.JSONDecodeError` and `KeyError`, so
at this concrete input — an oracle raising a connection error — the
exception propagates out of `extract_metrics`. -/
theorem extract_metrics_oracle_failure_propagates :
    extract_metrics "report" (stubOracle (.err .connection)) = .error (.oracle .connection) :=
  rfl

/-- C1 (amended): a failure to JSON-decode the oracle's response text
yields the all-default record without raising, but a failure of the
oracle call itself (network/timeout/non-2xx raised by the completion
client) is not caught and propagates to the caller of
`extract_metrics`. -/
theorem extract_metrics_error_handling (rt : String) (e : OracleError) (resp : String) :
    extract_metrics rt (stubOracle (.err e)) = .error (.oracle e)
    ∧ (json_loads (stripFence (pyStrip resp)) = .error () →
        extract_metrics rt (stubOracle (.ok resp)) = .ok default_metrics) := by
  constructor
  · rfl
  · intro h
    rw [extract_metrics_ok_eq rt _ resp rfl, h]

/-- C1 (witness): a concrete garbage response fails to decode and yields
the default record. -/
theorem extract_metrics_error_handling_witness :
    json_loads (stripFence (pyStrip "garbage")) = .error ()
    ∧ extract_metrics "" (stubOracle (.ok "garbage")) = .ok default_metrics :=
  ⟨rfl, (extract_metrics_error_handling "" .connection "garbage").2 rfl⟩

/-- C2 (counterexample): the claim says a response decoding to a JSON
array returns the default record without raising; but on the decoded
array `[1, 2, 3]` the merge `defaults.update(parsed)` raises a
`TypeError` (its first element is not a key/value sequence), which is not
caught by the `except (json.JSONDecodeError, KeyError)` clause. -/
theorem extract_metrics_nonobject_counterexample :
    json_loads (stripFence (pyStrip "[1, 2, 3]")) = .ok (.arr [.num 1 0, .num 2 0, .num 3 0])
    ∧ extract_metrics "" (stubOracle (.ok "[1, 2, 3]")) = .error .typeError :=
  ⟨rfl, rfl⟩

/-- C2 (amended): when the stripped response decodes to a non-object JSON
value, `extract_metrics` does not in general return the default record:
a decoded number, boolean or `null` makes `dict.update` raise `TypeError`,
a decoded non-empty string raises `ValueError`, and an array whose first
element is a number raises `TypeError`; each propagates uncaught to the
caller.  (Degenerate non-objects that happen to be iterables of key/value
pairs, such as the empty string, are accepted by the merge instead.) -/
theorem extract_metrics_nonobject_raises (rt resp : String) (v : Json)
    (h : json_loads (stripFence (pyStrip resp)) = .ok v) :
    (∀ m e : Int, v = .num m e →
      extract_metrics rt (stubOracle (.ok resp)) = .error .typeError)
    ∧ (∀ b : Bool, v = .bool b →
      extract_metrics rt (stubOracle (.ok resp)) = .error .typeError)
    ∧ (v = .null →
      extract_metrics rt (stubOracle (.ok resp)) = .error .typeError)
    ∧ (∀ s : String, v = .str s → s ≠ "" →
      extract_metrics rt (stubOracle (.ok resp)) = .error .valueError)
    ∧ (∀ (m e : Int) (tl : List Json), v = .arr (.num m e :: tl) →
      extract_metrics rt (stubOracle (.ok resp)) = .error .typeError) := by
  rw [extract_metrics_ok_eq rt _ resp rfl, h]
  refine ⟨?_, ?_, ?_, ?_, ?_⟩
  · intro m e hv; subst hv; rfl
  · intro b hv; subst hv; rfl
  · intro hv; subst hv; rfl
  · intro s hv hs
    subst hv
    obtain ⟨l⟩ := s
    cases l with
    | nil => exact absurd rfl hs
    | cons c cs => rfl
  · intro m e tl hv; subst hv; rfl

/-- C2 (witness): the concrete response `5` decodes to a JSON number and
makes `extract_metrics` raise `TypeError`. -/
theorem extract_metrics_nonobject_raises_witness :
    json_loads (stripFence (pyStrip "5")) = .ok (.num 5 0)
    ∧ extract_metrics "" (stubOracle (.ok "5")) = .error .typeError :=
  ⟨rfl, (extract_metrics_nonobject_raises "" "5" (.num 5 0) rfl).1 5 0 rfl⟩

/-- C4: on the fenced response `'```json\n{"revenue": 500, "currency":
"$"}\n```'` the fence is stripped, the JSON decoded, and the result merges
the decoded fields over the defaults: revenue 500 and currency `$`, the
other three fields at their defaults. -/
theorem extract_metrics_fenced_partial (rt : String) :
    extract_metrics rt (stubOracle (.ok "```json\n\x7b\"revenue\": 500, \"currency\": \"$\"\x7d\n```")) =
      .ok [(.str "revenue", .num 500 0), (.str "profit", .num 0 0), (.str "expenses", .num 0 0),
           (.str "market_cap", .num 0 0), (.str "currency", .str "$")] :=
  rfl

/-- C5: on the bare (unfenced) complete JSON object, `extract_metrics`
returns exactly that record, no field altered. -/
theorem extract_metrics_bare_complete (rt : String) :
    extract_metrics rt (stubOracle
        (.ok "\x7b\"revenue\": 500, \"profit\": 100, \"expenses\": 50, \"market_cap\": 9000, \"currency\": \"₹\"\x7d")) =
      .ok [(.str "revenue", .num 500 0), (.str "profit", .num 100 0), (.str "expenses", .num 50 0),
           (.str "market_cap", .num 9000 0), (.str "currency", .str "₹")] :=
  rfl

/-- C3: any record actually returned by `extract_metrics` contains all
five keys `revenue`, `profit`, `expenses`, `market_cap` and `currency`,
whatever the oracle outcome was: the defaults start fully populated, the
merge only overwrites or appends, and the decode-failure path returns the
fully populated defaults. -/
theorem extract_metrics_fully_populated (rt : String)
    (oracle : ChatRequest → OracleOutcome) (d : List (Json × Json))
    (h : extract_metrics rt oracle = .ok d) :
    (lookupD d (.str "revenue")).isSome = true
    ∧ (lookupD d (.str "profit")).isSome = true
    ∧ (lookupD d (.str "expenses")).isSome = true
    ∧ (lookupD d (.str "market_cap")).isSome = true
    ∧ (lookupD d (.str "currency")).isSome = true := by
  cases ho : oracle (extractRequest rt) with
  | err e =>
    have hx : extract_metrics rt oracle = .error (.oracle e) := by
      unfold extract_metrics; rw [ho]
    rw [hx] at h
    exact absurd h (by simp)
  | ok content =>
    rw [extract_metrics_ok_eq rt oracle content ho] at h
    cases hp : json_loads (stripFence (pyStrip content)) with
    | error u =>
      rw [hp] at h
      cases h
      exact ⟨rfl, rfl, rfl, rfl, rfl⟩
    | ok parsed =>
      rw [hp] at h
      cases parsed with
      | null => exact absurd h (by simp [dict_update])
      | bool b => exact absurd h (by simp [dict_update])
      | num m e => exact absurd h (by simp [dict_update])
      | str s =>
        simp only [dict_update] at h
        cases hu : updateFromPairs default_metrics (stringItems s) with
        | error e => rw [hu] at h; exact absurd h (by simp)
        | ok d2 =>
          rw [hu] at h
          cases h
          exact ⟨updateFromPairs_isSome _ _ _ _ hu rfl, updateFromPairs_isSome _ _ _ _ hu rfl,
                 updateFromPairs_isSome _ _ _ _ hu rfl, updateFromPairs_isSome _ _ _ _ hu rfl,
                 updateFromPairs_isSome _ _ _ _ hu rfl⟩
      | arr items =>
        simp only [dict_update] at h
        cases hu : updateFromPairs default_metrics items with
        | error e => rw [hu] at h; exact absurd h (by simp)
        | ok d2 =>
          rw [hu] at h
          cases h
          exact ⟨updateFromPairs_isSome _ _ _ _ hu rfl, updateFromPairs_isSome _ _ _ _ hu rfl,
                 updateFromPairs_isSome _ _ _ _ hu rfl, updateFromPairs_isSome _ _ _ _ hu rfl,
                 updateFromPairs_isSome _ _ _ _ hu rfl⟩
      | obj kvs =>
        simp only [dict_update] at h
        cases h
        refine ⟨?_, ?_, ?_, ?_, ?_⟩ <;>
          · rw [lookupD_foldInsert]
            cases hv : objLastVal kvs _ <;> rfl

/-- C3 (witness): the empty JSON object leaves the defaults, which carry
all five keys. -/
theorem extract_metrics_fully_populated_witness :
    (lookupD default_metrics (.str "revenue")).isSome = true
    ∧ (lookupD default_metrics (.str "profit")).isSome = true
    ∧ (lookupD default_metrics (.str "expenses")).isSome = true
    ∧ (lookupD default_metrics (.str "market_cap")).isSome = true
    ∧ (lookupD default_metrics (.str "currency")).isSome = true :=
  extract_metrics_fully_populated "" (stubOracle (.ok "\x7b\x7d")) default_metrics rfl

/-- C6: the extraction request fixes temperature 0 and a 150-token
output ceiling, and the prompt embeds only the first 2000 characters of
the report: the user message is the fixed instruction followed by
`report_text[:2000]`, and any two reports agreeing on their first 2000
characters produce the same request. -/
theorem extractRequest_params (rt : String) :
    (extractRequest rt).temperature = 0
    ∧ (extractRequest rt).max_tokens = 150
    ∧ (extractRequest rt).messages =
        [⟨"system", extractSystemMsg⟩, ⟨"user", extractPromptIntro ++ rt.take 2000⟩]
    ∧ (∀ rt' : String, rt'.take 2000 = rt.take 2000 → extractRequest rt' = extractRequest rt) := by
  refine ⟨rfl, rfl, rfl, ?_⟩
  intro rt' h
  simp [extractRequest, extract_prompt, h]

/-- C6 (witness): concrete instance at a short report. -/
theorem extractRequest_params_witness :
    (extractRequest "q1 report").temperature = 0
    ∧ (extractRequest "q1 report").max_tokens = 150
    ∧ extractRequest "q1 report" = extractRequest "q1 report" :=
  ⟨(extractRequest_params "q1 report").1, (extractRequest_params "q1 report").2.1,
   (extractRequest_params "q1 report").2.2.2 "q1 report" rfl⟩

/-- C7: any query whose lower-cased text contains "business model" is
classified as `business_model`, whatever other keywords are present,
because the predicate list is evaluated in priority order and this
predicate is first. -/
theorem classify_business_model_priority (query : String)
    (h : containsSub (pyLower query) "business model" = true) :
    classify query = .business_model := by
  simp [classify, h]

/-- C7 (witness): a mixed-case query that also contains the keywords of
the lower-priority `red_flags` and `growth_outlook` categories. -/
theorem classify_business_model_priority_witness :
    containsSub (pyLower "Business MODEL, red flag and growth outlook?") "business model" = true
    ∧ classify "Business MODEL, red flag and growth outlook?" = AnalysisCategory.business_model :=
  ⟨rfl, classify_business_model_priority _ rfl⟩

/-- C8 (counterexample): the claim says that with the key present startup
proceeds; but `if not api_key` treats a present-but-empty
`GROQ_API_KEY` as missing, so the script halts at this concrete
environment. -/
theorem startup_empty_key_halts :
    startup (fun _ => some "") =
      .halted "❌ GROQ_API_KEY not found. Please add it in your .env file." :=
  rfl

/-- C8 (amended): if `GROQ_API_KEY` is absent — or present but empty,
which Python's truthiness test treats identically — the script displays
an error and stops before any analysis action exists; with a non-empty
key, startup proceeds and the client is built from that key.  Key absence
is checked only in the module prologue, never later. -/
theorem startup_key_check (env : String → Option String) :
    (env "GROQ_API_KEY" = none →
      startup env = .halted "❌ GROQ_API_KEY not found. Please add it in your .env file.")
    ∧ (env "GROQ_API_KEY" = some "" →
      startup env = .halted "❌ GROQ_API_KEY not found. Please add it in your .env file.")
    ∧ (∀ k : String, env "GROQ_API_KEY" = some k → k ≠ "" → startup env = .running k) := by
  refine ⟨?_, ?_, ?_⟩
  · intro h; simp [startup, py_truthy, h]
  · intro h; simp [startup, py_truthy, h]
  · intro k h hk; simp [startup, py_truthy, h, hk]

/-- C8 (witness): a non-empty key proceeds to a running client. -/
theorem startup_key_check_witness :
    startup (fun _ => some "sk-test-123") = .running "sk-test-123" :=
  (startup_key_check _).2.2 "sk-test-123" rfl (by decide)

/-- C9: in both the table and the chart value column, a metric value not
strictly greater than zero renders as "N/A" and a strictly positive value
renders as the number followed by the currency symbol and the "Cr"
suffix; the two columns render identically. -/
theorem metric_rendering_zero_is_na (r p e m : Int) (c : String) :
    table_df_values r p e m c = df_values r p e m c
    ∧ (∀ pr ∈ List.zip [r, p, e, m] (table_df_values r p e m c),
        (pr.1 ≤ 0 → pr.2 = "N/A")
        ∧ (0 < pr.1 → pr.2 = toString pr.1 ++ " " ++ c ++ " Cr")) := by
  constructor
  · simp [table_df_values, df_values]
  · intro pr hpr
    simp only [table_df_values, List.zip, List.zipWith, List.mem_cons,
      List.not_mem_nil, or_false] at hpr
    rcases hpr with h | h | h | h <;> subst h <;>
      exact ⟨fun hle => by rw [if_neg (by omega)],
             fun hlt => by rw [if_pos (by omega)]⟩

/-- C9 (witness): concrete metrics with zero, negative and positive
values. -/
theorem metric_rendering_zero_is_na_witness :
    table_df_values 7 0 (-2) 1 "₹" = df_values 7 0 (-2) 1 "₹"
    ∧ ("N/A" : String) = "N/A" :=
  ⟨(metric_rendering_zero_is_na 7 0 (-2) 1 "₹").1,
   ((metric_rendering_zero_is_na 7 0 (-2) 1 "₹").2 ((0 : Int), "N/A") (by decide)).1 (by decide)⟩

/-- C10: when the oracle's response decodes to a JSON object, every key
outside the five default fields is carried into the returned record:
looking the returned record up at such a key gives exactly what the
decoded object associates with it (`dict.update` merges all decoded
keys, restricting nothing). -/
theorem extract_metrics_preserves_extra_keys (rt resp : String)
    (kvs : List (String × Json)) (d : List (Json × Json)) (k : String)
    (hp : json_loads (stripFence (pyStrip resp)) = .ok (.obj kvs))
    (he : extract_metrics rt (stubOracle (.ok resp)) = .ok d)
    (hk : k ∉ (["revenue", "profit", "expenses", "market_cap", "currency"] : List String)) :
    lookupD d (.str k) = objLastVal kvs (.str k) := by
  rw [extract_metrics_ok_eq rt _ resp rfl, hp] at he
  simp only [dict_update] at he
  cases he
  rw [lookupD_foldInsert]
  cases hv : objLastVal kvs (.str k) with
  | some v => rfl
  | none => exact lookupD_default_none k hk

/-- C10 (witness): a decoded object with the extra key "note" keeps that
key and value in the returned record. -/
theorem extract_metrics_preserves_extra_keys_witness :
    lookupD [(.str "revenue", .num 7 0), (.str "profit", .num 0 0), (.str "expenses", .num 0 0),
             (.str "market_cap", .num 0 0), (.str "currency", .str "₹"), (.str "note", .str "hi")]
        (.str "note") =
      objLastVal [("revenue", .num 7 0), ("note", .str "hi")] (.str "note") :=
  extract_metrics_preserves_extra_keys "" "\x7b\"revenue\": 7, \"note\": \"hi\"\x7d"
    [("revenue", .num 7 0), ("note", .str "hi")]
    [(.str "revenue", .num 7 0), (.str "profit", .num 0 0), (.str "expenses", .num 0 0),
     (.str "market_cap", .num 0 0), (.str "currency", .str "₹"), (.str "note", .str "hi")]
    "note" rfl rfl (by decide)

end FinGpt
